import Mathlib

/-!
Verification of the parameter-derivation logic of the
`peertube-plugin-av1-advanced` transcoding plugin variants.

JavaScript `number` values are modelled as exact rationals (ℚ):
all values the plugin manipulates are integer-valued bitrates, frame
rates and quality levels, and the spec's formulas are stated in exact
arithmetic with an explicit floor.  `Map` values are modelled as
`VideoResolution → Option ℚ` (`undefined` = `none`), and JavaScript's
falsy-coalescing `x || d` is modelled explicitly (`0` and `undefined`
both fall through to `d`).
-/

/-- The closed set of PeerTube resolution tiers, with their numeric
enum values given by `resolutionValue`. -/
inductive VideoResolution : Type
  | H_NOVIDEO
  | H_144P
  | H_240P
  | H_360P
  | H_480P
  | H_720P
  | H_1080P
  | H_1440P
  | H_4K
deriving DecidableEq, Fintype, Repr

/-- Numeric value of the `VideoResolution` enum (used when a resolution
is spliced into a template string such as a settings key). -/
def resolutionValue : VideoResolution → Nat
  | .H_NOVIDEO => 0
  | .H_144P => 144
  | .H_240P => 240
  | .H_360P => 360
  | .H_480P => 480
  | .H_720P => 720
  | .H_1080P => 1080
  | .H_1440P => 1440
  | .H_4K => 2160

/-- A JavaScript `Map<VideoResolution, number>`: `get` on an absent key
yields `undefined`, modelled as `none`. -/
def JSMap (α : Type) : Type := VideoResolution → Option α

/-- `Map.prototype.get`. -/
def JSMap.get {α : Type} (m : JSMap α) (r : VideoResolution) : Option α := m r

/-- `Map.prototype.set`. -/
def JSMap.set {α : Type} (m : JSMap α) (r : VideoResolution) (v : α) : JSMap α :=
  fun x => if x = r then some v else m x

/-- Build a `Map` from an entry list (as `new Map([...])`). -/
def JSMap.ofList {α : Type} (l : List (VideoResolution × α)) : JSMap α :=
  fun r => (l.find? (fun p => p.1 = r)).map Prod.snd

/-- JavaScript `x || d` on a possibly-undefined number: `undefined` and
`0` are falsy and fall through to the default. -/
def jsOrQ (x : Option ℚ) (d : ℚ) : ℚ :=
  match x with
  | none => d
  | some v => if v = 0 then d else v

/-- JavaScript `x || d` where `x` is a `parseInt` result (`none` = `NaN`)
and the surrounding context uses the value as a number. -/
def jsOrZ (x : Option ℤ) (d : ℚ) : ℚ :=
  match x with
  | none => d
  | some v => if v = 0 then d else (v : ℚ)

/-- JavaScript `x || d` for an integer-typed setting. -/
def jsOrInt (x : Option ℤ) (d : ℤ) : ℤ :=
  match x with
  | none => d
  | some v => if v = 0 then d else v

/-- JavaScript `s || d` on a possibly-undefined string (empty string is
falsy). -/
def jsOrStr (x : Option String) (d : String) : String :=
  match x with
  | none => d
  | some s => if s = "" then d else s

/-- Decimal digits of a numeral prefix, as accumulated by `parseInt`. -/
def digitsToNat (cs : List Char) : Nat :=
  cs.foldl (fun acc c => acc * 10 + (c.toNat - 48)) 0

/-- JavaScript `parseInt` (radix 10): skip leading whitespace, optional
sign, then the longest digit prefix; `none` models `NaN`. -/
def parseIntJS (s : String) : Option ℤ :=
  let cs := s.data.dropWhile Char.isWhitespace
  let signAndRest : ℤ × List Char :=
    match cs with
    | '-' :: r => (-1, r)
    | '+' :: r => (1, r)
    | r => (1, r)
  let ds := signAndRest.2.takeWhile Char.isDigit
  if ds.isEmpty then none
  else some (signAndRest.1 * (digitsToNat ds : ℤ))

/-- `parseInt(await settingsManager.getSetting(key) as string)`:
an unset setting (`undefined`) parses to `NaN`. -/
def parseSetting (x : Option String) : Option ℤ :=
  x.bind parseIntJS

/-- A settings store: `getSetting` returns the stored string or
`undefined`. -/
def SettingsStore : Type := String → Option String

/-- A settings store with no stored values at all. -/
def noStore : SettingsStore := fun _ => none

/-- Parameters handed to an encoder-options builder
(`EncoderOptionsBuilderParams`). -/
structure EncoderOptionsBuilderParams : Type where
  resolution : VideoResolution
  fps : ℚ
  streamNum : Option ℤ
  inputBitrate : ℚ

/-- The builder result (`EncoderOptions`): scale-filter selector,
pre-input flags, output flags. -/
structure EncoderOptions : Type where
  scaleFilterName : String
  inputOptions : List String
  outputOptions : List String
deriving DecidableEq, Repr

/-- Initial value of the module-global `latestStreamNum`. -/
def latestStreamNumInit : ℤ := 9999

/-- `streamNum == undefined || streamNum <= latestStreamNum`, the guard
deciding whether one-time initialization flags are emitted. -/
def shouldInitVaapi (streamNum : Option ℤ) (latest : ℤ) : Prop :=
  streamNum = none ∨ ∃ n, streamNum = some n ∧ n ≤ latest

instance (streamNum : Option ℤ) (latest : ℤ) :
    Decidable (shouldInitVaapi streamNum latest) := by
  unfold shouldInitVaapi
  cases streamNum with
  | none => exact isTrue (Or.inl rfl)
  | some n =>
    by_cases h : n ≤ latest
    · exact isTrue (Or.inr ⟨n, rfl, h⟩)
    · refine isFalse ?_
      rintro (hc | ⟨m, hm, hle⟩)
      · exact Option.noConfusion hc
      · exact h ((Option.some.injEq n m ▸ hm) ▸ hle)

/-- `if (shouldInitVaapi && streamNum != undefined) latestStreamNum = streamNum`. -/
def updateLatest (streamNum : Option ℤ) (latest : ℤ) : ℤ :=
  if shouldInitVaapi streamNum latest then
    match streamNum with
    | some n => n
    | none => latest
  else latest

/-- `const streamSuffix = streamNum == undefined ? '' : `:${streamNum}`` -/
def streamSuffixStr (streamNum : Option ℤ) : String :=
  match streamNum with
  | none => ""
  | some n => ":" ++ toString n

namespace AV1Main

/-! Embedding of `src/main.ts` (SVT-AV1 variant, bitrate scale factor 1.6). -/

def DEFAULT_HARDWARE_DECODE : Bool := false
def DEFAULT_QUALITY : ℤ := 6
def DEFAULT_CRF : ℤ := 28
def DEFAULT_GOP : ℤ := 2

def DEFAULT_BITRATES : List (VideoResolution × ℚ) :=
  [(.H_NOVIDEO, 64000),
   (.H_144P, 700000),
   (.H_240P, 1500000),
   (.H_360P, 2600000),
   (.H_480P, 4200000),
   (.H_720P, 7000000),
   (.H_1080P, 13000000),
   (.H_1440P, 19000000),
   (.H_4K, 36000000)]

def DEFAULT_CRF_RES : List (VideoResolution × ℚ) :=
  [(.H_NOVIDEO, 28),
   (.H_144P, 28),
   (.H_240P, 28),
   (.H_360P, 28),
   (.H_480P, 28),
   (.H_720P, 28),
   (.H_1080P, 28),
   (.H_1440P, 28),
   (.H_4K, 28)]

structure PluginSettings : Type where
  hardwareDecode : Bool
  quality : ℤ
  crf : ℤ
  gop : ℤ
  baseBitrate : JSMap ℚ
  crf_per_res : JSMap ℚ

/-- The initial `pluginSettings` value (copies of the default maps). -/
def initialPluginSettings : PluginSettings :=
  { hardwareDecode := DEFAULT_HARDWARE_DECODE
    quality := DEFAULT_QUALITY
    crf := DEFAULT_CRF
    gop := DEFAULT_GOP
    baseBitrate := JSMap.ofList DEFAULT_BITRATES
    crf_per_res := JSMap.ofList DEFAULT_CRF_RES }

/-- `` `base-bitrate-${resolution}` `` -/
def bitrateSettingKey (r : VideoResolution) : String :=
  "base-bitrate-" ++ toString (resolutionValue r)

/-- `` `crf-for-${resolution}` `` -/
def crfSettingKey (r : VideoResolution) : String :=
  "crf-for-" ++ toString (resolutionValue r)

/-- `loadSettings` of `src/main.ts`: scalar settings parse-or-default;
each per-resolution loop iterates the default table's entries and sets
the runtime map entry to `parseInt(storedValue) || defaultValue`. -/
def loadSettings (sm : SettingsStore) (prior : PluginSettings) : PluginSettings :=
  { hardwareDecode := sm "hardware-decode" = some "true"
    quality := jsOrInt (parseSetting (sm "quality")) DEFAULT_QUALITY
    crf := jsOrInt (parseSetting (sm "crf")) DEFAULT_CRF
    gop := jsOrInt (parseSetting (sm "gop")) DEFAULT_GOP
    baseBitrate :=
      DEFAULT_BITRATES.foldl
        (fun m rb => m.set rb.1 (jsOrZ (parseSetting (sm (bitrateSettingKey rb.1))) rb.2))
        prior.baseBitrate
    crf_per_res :=
      DEFAULT_CRF_RES.foldl
        (fun m rb => m.set rb.1 (jsOrZ (parseSetting (sm (crfSettingKey rb.1))) rb.2))
        prior.crf_per_res }

/-- The un-floored interpolated bitrate of `getTargetBitrate`:
`baseBitrate + (fps - 30) * ((baseBitrate * 1.6 - baseBitrate) / 30)`. -/
def targetBitrateLinear (baseBitrate fps : ℚ) : ℚ :=
  let maxBitrate := baseBitrate * 1.6
  let maxBitrateDifference := maxBitrate - baseBitrate
  let maxFpsDifference : ℚ := 60 - 30
  baseBitrate + (fps - 30) * (maxBitrateDifference / maxFpsDifference)

/-- `getTargetBitrate` of `src/main.ts`: looks up the base bitrate
(`|| 0` on a missing tier) and floors the linear interpolation. -/
def getTargetBitrate (baseBitrate : JSMap ℚ) (resolution : VideoResolution)
    (fps : ℚ) : ℤ :=
  ⌊targetBitrateLinear (jsOrQ (baseBitrate.get resolution) 0) fps⌋

/-- `buildInitOptions`. -/
def buildInitOptions (hardwareDecode : Bool) : List String :=
  if hardwareDecode then
    ["-hwaccel vaapi",
     "-vaapi_device /dev/dri/renderD128",
     "-hwaccel_output_format vaapi"]
  else
    ["-hide_banner"]

/-- `if (targetBitrate > inputBitrate) targetBitrate = inputBitrate`. -/
def clampToInput (targetBitrate inputBitrate : ℚ) : ℚ :=
  if targetBitrate > inputBitrate then inputBitrate else targetBitrate

/-- `vodBuilder` of `src/main.ts`, with the global `latestStreamNum`
passed and returned explicitly. -/
def vodBuilder (s : PluginSettings) (latest : ℤ)
    (p : EncoderOptionsBuilderParams) : EncoderOptions × ℤ :=
  let targetBitrate : ℚ :=
    clampToInput ((getTargetBitrate s.baseBitrate p.resolution p.fps : ℤ) : ℚ)
      p.inputBitrate
  let targetCRF : ℚ := jsOrQ (s.baseBitrate.get p.resolution) 0
  ( { scaleFilterName := if s.hardwareDecode then "scale" else "scale"
      inputOptions :=
        if shouldInitVaapi p.streamNum latest then buildInitOptions s.hardwareDecode
        else []
      outputOptions :=
        ["-preset " ++ toString s.quality,
         "-pix_fmt yuv420p",
         "-crf " ++ toString targetCRF,
         "-maxrate " ++ toString targetBitrate,
         "-bufsize " ++ toString (targetBitrate * 2),
         "-g " ++ toString p.fps ++ "*" ++ toString s.gop,
         "-svtav1-params tune=0:fast-decode=1:tile-rows=3:tile-columns=4:variance-boost-strength=2"] },
    updateLatest p.streamNum latest )

/-- `vodAudioBuilder` of `src/main.ts` (ignores the request entirely,
touches no global state). -/
def vodAudioBuilder (s : PluginSettings)
    (_p : EncoderOptionsBuilderParams) : EncoderOptions :=
  { scaleFilterName := if s.hardwareDecode then "scale" else "scale"
    inputOptions := []
    outputOptions :=
      ["-b:a 320k",
       "-af loudnorm=I=-14:LRA=11:TP=-1"] }

/-- `liveBuilder` of `src/main.ts`. -/
def liveBuilder (s : PluginSettings) (latest : ℤ)
    (p : EncoderOptionsBuilderParams) : EncoderOptions × ℤ :=
  let suffix := streamSuffixStr p.streamNum
  let targetBitrate : ℚ :=
    clampToInput ((getTargetBitrate s.baseBitrate p.resolution p.fps : ℤ) : ℚ)
      p.inputBitrate
  ( { scaleFilterName := if s.hardwareDecode then "scale" else "scale"
      inputOptions :=
        if shouldInitVaapi p.streamNum latest then buildInitOptions s.hardwareDecode
        else []
      outputOptions :=
        ["-preset " ++ toString s.quality,
         "-r:v" ++ suffix ++ " " ++ toString p.fps,
         "-profile:v" ++ suffix ++ " high",
         "-level:v" ++ suffix ++ " 3.1",
         "-g:v" ++ suffix ++ " " ++ toString (p.fps * 1),
         "-b:v" ++ suffix ++ " " ++ toString targetBitrate,
         "-bufsize " ++ toString (targetBitrate * 2),
         "-map_metadata -1"] },
    updateLatest p.streamNum latest )

end AV1Main

namespace P000

/-! Embedding of the variant in `src/unnamed/part_000` (SVT-AV1,
per-resolution CRF and preset tables, no bitrate logic). -/

def DEFAULT_HARDWARE_DECODE : Bool := false
def DEFAULT_PIX_FMT : String := "yuv420p"
def DEFAULT_GOP : ℤ := 2

def DEFAULT_CRF_RES : List (VideoResolution × ℚ) :=
  [(.H_NOVIDEO, 28),
   (.H_144P, 28),
   (.H_240P, 28),
   (.H_360P, 28),
   (.H_480P, 28),
   (.H_720P, 28),
   (.H_1080P, 28),
   (.H_1440P, 28),
   (.H_4K, 28)]

def DEFAULT_PRESET : List (VideoResolution × ℚ) :=
  [(.H_NOVIDEO, 12),
   (.H_144P, 4),
   (.H_240P, 4),
   (.H_360P, 4),
   (.H_480P, 4),
   (.H_720P, 5),
   (.H_1080P, 5),
   (.H_1440P, 6),
   (.H_4K, 6)]

structure PluginSettings : Type where
  hardwareDecode : Bool
  pix_fmt : String
  preset : JSMap ℚ
  gop : ℤ
  crfPerResolution : JSMap ℚ

/-- The initial `pluginSettings` value of `part_000`. -/
def initialPluginSettings : PluginSettings :=
  { hardwareDecode := DEFAULT_HARDWARE_DECODE
    pix_fmt := DEFAULT_PIX_FMT
    preset := JSMap.ofList DEFAULT_PRESET
    gop := DEFAULT_GOP
    crfPerResolution := JSMap.ofList DEFAULT_CRF_RES }

/-- `` `crf-for-${resolution}` `` -/
def crfSettingKey (r : VideoResolution) : String :=
  "crf-for-" ++ toString (resolutionValue r)

/-- `` `preset-for-${resolution}` `` -/
def presetSettingKey (r : VideoResolution) : String :=
  "preset-for-" ++ toString (resolutionValue r)

/-- `loadSettings` of `part_000`, embedded exactly as written: the
second loop (over `DEFAULT_PRESET`, reading the `preset-for-*` keys)
stores its results into `pluginSettings.crfPerResolution`, and
`pluginSettings.preset` is never written. -/
def loadSettings (sm : SettingsStore) (prior : PluginSettings) : PluginSettings :=
  let afterCrfLoop : JSMap ℚ :=
    DEFAULT_CRF_RES.foldl
      (fun m rb => m.set rb.1 (jsOrZ (parseSetting (sm (crfSettingKey rb.1))) rb.2))
      prior.crfPerResolution
  let afterPresetLoop : JSMap ℚ :=
    DEFAULT_PRESET.foldl
      (fun m rb => m.set rb.1 (jsOrZ (parseSetting (sm (presetSettingKey rb.1))) rb.2))
      afterCrfLoop
  { hardwareDecode := sm "hardware-decode" = some "true"
    pix_fmt := jsOrStr (sm "pix_fmt") DEFAULT_PIX_FMT
    preset := prior.preset
    gop := jsOrInt (parseSetting (sm "gop")) DEFAULT_GOP
    crfPerResolution := afterPresetLoop }

end P000

namespace P001

/-! Embedding of the first variant in `src/unnamed/part_001` (SVT-AV1,
single per-resolution CRF table; its `vodBuilder` resolves the CRF with
`crfPerResolution.get(resolution) || 0`). -/

def DEFAULT_QUALITY : ℤ := 6
def DEFAULT_GOP : ℤ := 2

def DEFAULT_CRF_RES : List (VideoResolution × ℚ) :=
  [(.H_NOVIDEO, 28),
   (.H_144P, 28),
   (.H_240P, 28),
   (.H_360P, 28),
   (.H_480P, 28),
   (.H_720P, 28),
   (.H_1080P, 28),
   (.H_1440P, 28),
   (.H_4K, 28)]

structure PluginSettings : Type where
  hardwareDecode : Bool
  quality : ℤ
  gop : ℤ
  crfPerResolution : JSMap ℚ

def initialPluginSettings : PluginSettings :=
  { hardwareDecode := false
    quality := DEFAULT_QUALITY
    gop := DEFAULT_GOP
    crfPerResolution := JSMap.ofList DEFAULT_CRF_RES }

/-- `vodBuilder` of the first `part_001` variant. -/
def vodBuilder (s : PluginSettings) (latest : ℤ)
    (p : EncoderOptionsBuilderParams) : EncoderOptions × ℤ :=
  let targetCRF : ℚ := jsOrQ (s.crfPerResolution.get p.resolution) 0
  ( { scaleFilterName := if s.hardwareDecode then "scale" else "scale"
      inputOptions :=
        if shouldInitVaapi p.streamNum latest then
          AV1Main.buildInitOptions s.hardwareDecode
        else []
      outputOptions :=
        ["-sws_flags lanczos+accurate_rnd",
         "-preset " ++ toString s.quality,
         "-pix_fmt yuv420p",
         "-crf " ++ toString targetCRF,
         "-g " ++ toString p.fps ++ "*" ++ toString s.gop,
         "-svtav1-params tune=0:fast-decode=1:tile-rows=3:tile-columns=4:variance-boost-strength=2"] },
    updateLatest p.streamNum latest )

end P001

namespace HWEncode

/-! Embedding of `src/unnamed/part_002`
(`peertube-plugin-hardware-encode`, h264_vaapi, scale factor 1.4,
compiled-in base-bitrate ladder). -/

def initVaapiOptions : List String :=
  ["-vaapi_device /dev/dri/renderD128"]

/-- `getBaseBitrate` of `part_002` (threshold ladder over the numeric
resolution value). -/
def getBaseBitrate (resolution : VideoResolution) : ℚ :=
  if resolutionValue resolution = 0 then 64000
  else if resolutionValue resolution ≤ 240 then 320000
  else if resolutionValue resolution ≤ 360 then 780000
  else if resolutionValue resolution ≤ 480 then 1500000
  else if resolutionValue resolution ≤ 720 then 2800000
  else if resolutionValue resolution ≤ 1080 then 5200000
  else if resolutionValue resolution ≤ 1440 then 10000000
  else 22000000

/-- The un-floored interpolated bitrate of `part_002`'s
`getTargetBitrate` (scale factor 1.4). -/
def targetBitrateLinear (baseBitrate fps : ℚ) : ℚ :=
  let maxBitrate := baseBitrate * 1.4
  let maxBitrateDifference := maxBitrate - baseBitrate
  let maxFpsDifference : ℚ := 60 - 30
  baseBitrate + (fps - 30) * (maxBitrateDifference / maxFpsDifference)

/-- `getTargetBitrate` of `part_002`. -/
def getTargetBitrate (resolution : VideoResolution) (fps : ℚ) : ℤ :=
  ⌊targetBitrateLinear (getBaseBitrate resolution) fps⌋

/-- `vodBuilder` of `part_002`. -/
def vodBuilder (latest : ℤ) (p : EncoderOptionsBuilderParams) :
    EncoderOptions × ℤ :=
  let suffix := streamSuffixStr p.streamNum
  let targetBitrate : ℤ := getTargetBitrate p.resolution p.fps
  ( { scaleFilterName := "format=nv12,hwupload,scale_vaapi"
      inputOptions :=
        if shouldInitVaapi p.streamNum latest then initVaapiOptions else []
      outputOptions :=
        ["-bf 8",
         "-preset veryfast",
         "-b:v" ++ suffix ++ " " ++ toString targetBitrate,
         "-maxrate " ++ toString targetBitrate,
         "-bufsize " ++ toString (targetBitrate * 2)] },
    updateLatest p.streamNum latest )

/-- `liveBuilder` of `part_002`: its keyframe-interval flag is
`` `-g:v${streamSuffix} ${fps*2}` ``. -/
def liveBuilder (latest : ℤ) (p : EncoderOptionsBuilderParams) :
    EncoderOptions × ℤ :=
  let suffix := streamSuffixStr p.streamNum
  let targetBitrate : ℤ := getTargetBitrate p.resolution p.fps
  ( { scaleFilterName := "scale_vaapi"
      inputOptions :=
        if shouldInitVaapi p.streamNum latest then initVaapiOptions else []
      outputOptions :=
        ["-bf 8",
         "-preset veryfast",
         "-r:v" ++ suffix ++ " " ++ toString p.fps,
         "-profile:v" ++ suffix ++ " high",
         "-level:v" ++ suffix ++ " 3.1",
         "-g:v" ++ suffix ++ " " ++ toString (p.fps * 2),
         "-b:v" ++ suffix ++ " " ++ toString targetBitrate,
         "-maxrate " ++ toString targetBitrate,
         "-bufsize " ++ toString (targetBitrate * 2)] },
    updateLatest p.streamNum latest )

end HWEncode

/-! ### Helper lemmas -/

/-- `x || 0` on a present value is the value itself (also when it is 0). -/
lemma jsOrQ_some (v : ℚ) : jsOrQ (some v) 0 = v := by
  show (if v = 0 then (0 : ℚ) else v) = v
  split
  · next h => exact h.symm
  · rfl

lemma jsOrQ_none (d : ℚ) : jsOrQ none d = d := rfl

lemma targetBitrateLinear_at30 (b : ℚ) : AV1Main.targetBitrateLinear b 30 = b := by
  unfold AV1Main.targetBitrateLinear
  ring

lemma targetBitrateLinear_at60 (b : ℚ) :
    AV1Main.targetBitrateLinear b 60 = b * 1.6 := by
  unfold AV1Main.targetBitrateLinear
  ring

lemma hw_targetBitrateLinear_at30 (b : ℚ) : HWEncode.targetBitrateLinear b 30 = b := by
  unfold HWEncode.targetBitrateLinear
  ring

lemma hw_targetBitrateLinear_at60 (b : ℚ) :
    HWEncode.targetBitrateLinear b 60 = b * 1.4 := by
  unfold HWEncode.targetBitrateLinear
  ring

lemma clampToInput_eq_min (t m : ℚ) : AV1Main.clampToInput t m = min t m := by
  unfold AV1Main.clampToInput
  rw [min_def]
  split
  · next h => rw [if_neg (not_le_of_lt h)]
  · next h =>
    rcases eq_or_lt_of_le (le_of_not_lt h) with h2 | h2
    · rw [if_pos (le_of_eq h2), h2]
    · rw [if_pos (le_of_lt h2)]

/-- C1: for an integer base bitrate `b` stored in the per-resolution
table, the target-bitrate computation returns exactly `b` at 30 fps and
`⌊b * K⌋` at 60 fps, with `K = 1.6` in the SVT-AV1 variants and
`K = 1.4` in the h264_vaapi variant. -/
theorem c1_target_bitrate_anchors :
    (∀ (tbl : JSMap ℚ) (res : VideoResolution) (b : ℤ),
        tbl.get res = some (b : ℚ) →
        AV1Main.getTargetBitrate tbl res 30 = b ∧
        AV1Main.getTargetBitrate tbl res 60 = ⌊(b : ℚ) * 1.6⌋) ∧
    (∀ (res : VideoResolution) (b : ℤ),
        HWEncode.getBaseBitrate res = (b : ℚ) →
        HWEncode.getTargetBitrate res 30 = b ∧
        HWEncode.getTargetBitrate res 60 = ⌊(b : ℚ) * 1.4⌋) := by
  constructor
  · intro tbl res b h
    unfold AV1Main.getTargetBitrate
    rw [h, jsOrQ_some]
    refine ⟨?_, ?_⟩
    · rw [targetBitrateLinear_at30, Int.floor_intCast]
    · rw [targetBitrateLinear_at60]
  · intro res b h
    unfold HWEncode.getTargetBitrate
    rw [h]
    refine ⟨?_, ?_⟩
    · rw [hw_targetBitrateLinear_at30, Int.floor_intCast]
    · rw [hw_targetBitrateLinear_at60]

/-- C1 witness: concrete anchors at 1080p (base 13000000 in the SVT-AV1
default table; base 5200000 in the h264_vaapi ladder). -/
theorem c1_target_bitrate_anchors_witness :
    (AV1Main.getTargetBitrate (JSMap.ofList AV1Main.DEFAULT_BITRATES)
        VideoResolution.H_1080P 30 = 13000000 ∧
     AV1Main.getTargetBitrate (JSMap.ofList AV1Main.DEFAULT_BITRATES)
        VideoResolution.H_1080P 60 = ⌊((13000000 : ℤ) : ℚ) * 1.6⌋) ∧
    (HWEncode.getTargetBitrate VideoResolution.H_1080P 30 = 5200000 ∧
     HWEncode.getTargetBitrate VideoResolution.H_1080P 60 = ⌊((5200000 : ℤ) : ℚ) * 1.4⌋) :=
  ⟨c1_target_bitrate_anchors.1 (JSMap.ofList AV1Main.DEFAULT_BITRATES)
      VideoResolution.H_1080P 13000000 rfl,
   c1_target_bitrate_anchors.2 VideoResolution.H_1080P 5200000 rfl⟩

lemma base144_eval :
    jsOrQ ((JSMap.ofList AV1Main.DEFAULT_BITRATES).get VideoResolution.H_144P) 0
      = 700000 := by decide

lemma target144_at (f : ℚ) :
    AV1Main.getTargetBitrate (JSMap.ofList AV1Main.DEFAULT_BITRATES)
      VideoResolution.H_144P f
      = ⌊AV1Main.targetBitrateLinear 700000 f⌋ := by
  unfold AV1Main.getTargetBitrate
  rw [base144_eval]

lemma target144_at30 :
    AV1Main.getTargetBitrate (JSMap.ofList AV1Main.DEFAULT_BITRATES)
      VideoResolution.H_144P 30 = 700000 := by
  rw [target144_at, targetBitrateLinear_at30]
  norm_num

lemma target144_at31 :
    AV1Main.getTargetBitrate (JSMap.ofList AV1Main.DEFAULT_BITRATES)
      VideoResolution.H_144P 31 = 714000 := by
  rw [target144_at]
  have h : AV1Main.targetBitrateLinear 700000 31 = 714000 := by
    unfold AV1Main.targetBitrateLinear
    norm_num
  rw [h]
  norm_num

lemma target144_at_third :
    AV1Main.getTargetBitrate (JSMap.ofList AV1Main.DEFAULT_BITRATES)
      VideoResolution.H_144P (91 / 3) = 704666 := by
  rw [target144_at]
  have h : AV1Main.targetBitrateLinear 700000 (91 / 3) = 2114000 / 3 := by
    unfold AV1Main.targetBitrateLinear
    norm_num
  rw [h, Int.floor_eq_iff]
  constructor
  · norm_num
  · norm_num

/-- C4 counterexample: with the default 144p base bitrate 700000, the
floored target bitrate is not proportional to the frame-rate change:
the pairs (30, 31) and (30, 91/3) force two different proportionality
constants (14000 versus 13998). -/
theorem c4_floor_breaks_proportionality :
    ¬ ∃ c : ℚ, ∀ f1 f2 : ℚ,
        ((AV1Main.getTargetBitrate (JSMap.ofList AV1Main.DEFAULT_BITRATES)
            VideoResolution.H_144P f2 : ℤ) : ℚ)
          - ((AV1Main.getTargetBitrate (JSMap.ofList AV1Main.DEFAULT_BITRATES)
              VideoResolution.H_144P f1 : ℤ) : ℚ)
          = c * (f2 - f1) := by
  rintro ⟨c, h⟩
  have h1 := h 30 31
  have h2 := h 30 (91 / 3)
  rw [target144_at30, target144_at31] at h1
  rw [target144_at30, target144_at_third] at h2
  push_cast at h1 h2
  have hc1 : c = 14000 := by linarith
  rw [hc1] at h2
  norm_num at h2

/-- C4 amended: the un-floored interpolated bitrate is an exactly linear
function of the frame rate, with slope `b * (K - 1) / 30`; the floored
target bitrate that the code returns tracks that linear function to
within strictly less than one unit (the floor destroys exact
proportionality). -/
theorem c4_linear_interpolation :
    (∀ b f1 f2 : ℚ,
        AV1Main.targetBitrateLinear b f2 - AV1Main.targetBitrateLinear b f1
          = (f2 - f1) * (b * (1.6 - 1) / 30)) ∧
    (∀ b f1 f2 : ℚ,
        HWEncode.targetBitrateLinear b f2 - HWEncode.targetBitrateLinear b f1
          = (f2 - f1) * (b * (1.4 - 1) / 30)) ∧
    (∀ (tbl : JSMap ℚ) (res : VideoResolution) (f : ℚ),
        AV1Main.targetBitrateLinear (jsOrQ (tbl.get res) 0) f - 1
            < ((AV1Main.getTargetBitrate tbl res f : ℤ) : ℚ) ∧
        ((AV1Main.getTargetBitrate tbl res f : ℤ) : ℚ)
            ≤ AV1Main.targetBitrateLinear (jsOrQ (tbl.get res) 0) f) := by
  refine ⟨?_, ?_, ?_⟩
  · intro b f1 f2
    unfold AV1Main.targetBitrateLinear
    ring
  · intro b f1 f2
    unfold HWEncode.targetBitrateLinear
    ring
  · intro tbl res f
    unfold AV1Main.getTargetBitrate
    exact ⟨Int.sub_one_lt_floor _, Int.floor_le _⟩

/-- C2: the bitrate the `src/main.ts` builders emit (`-maxrate` in the
VOD builder, `-b:v` in the live builder) is exactly
`min(computed target, measuredInputBitrate)`, so it never exceeds the
measured input bitrate when that is smaller than the unclamped target. -/
theorem c2_emitted_bitrate_is_min :
    (∀ t m : ℚ, AV1Main.clampToInput t m = min t m) ∧
    (∀ (s : AV1Main.PluginSettings) (latest : ℤ) (p : EncoderOptionsBuilderParams),
        ((AV1Main.vodBuilder s latest p).1.outputOptions)[3]?
          = some ("-maxrate " ++ toString
              (min ((AV1Main.getTargetBitrate s.baseBitrate p.resolution p.fps : ℤ) : ℚ)
                p.inputBitrate))) ∧
    (∀ (s : AV1Main.PluginSettings) (latest : ℤ) (p : EncoderOptionsBuilderParams),
        ((AV1Main.liveBuilder s latest p).1.outputOptions)[5]?
          = some ("-b:v" ++ streamSuffixStr p.streamNum ++ " " ++ toString
              (min ((AV1Main.getTargetBitrate s.baseBitrate p.resolution p.fps : ℤ) : ℚ)
                p.inputBitrate))) := by
  refine ⟨clampToInput_eq_min, ?_, ?_⟩
  · intro s latest p
    have h1 : ((AV1Main.vodBuilder s latest p).1.outputOptions)[3]?
        = some ("-maxrate " ++ toString
            (AV1Main.clampToInput
              ((AV1Main.getTargetBitrate s.baseBitrate p.resolution p.fps : ℤ) : ℚ)
              p.inputBitrate)) := rfl
    rw [h1, clampToInput_eq_min]
  · intro s latest p
    have h1 : ((AV1Main.liveBuilder s latest p).1.outputOptions)[5]?
        = some ("-b:v" ++ streamSuffixStr p.streamNum ++ " " ++ toString
            (AV1Main.clampToInput
              ((AV1Main.getTargetBitrate s.baseBitrate p.resolution p.fps : ℤ) : ℚ)
              p.inputBitrate)) := rfl
    rw [h1, clampToInput_eq_min]

/-- C3: a resolution tier absent from a per-resolution lookup table
resolves to 0 — `baseBitrate.get(resolution) || 0` is 0, the resulting
target bitrate is 0 for every frame rate, and the `part_001` VOD
builder emits `-crf 0` — rather than any fallback value. -/
theorem c3_missing_tier_resolves_to_zero :
    ∀ (tbl : JSMap ℚ) (res : VideoResolution) (fps : ℚ),
      tbl.get res = none →
      jsOrQ (tbl.get res) 0 = 0 ∧
      AV1Main.getTargetBitrate tbl res fps = 0 ∧
      (∀ (s : P001.PluginSettings) (latest : ℤ) (p : EncoderOptionsBuilderParams),
        s.crfPerResolution = tbl → p.resolution = res →
        ((P001.vodBuilder s latest p).1.outputOptions)[3]? = some "-crf 0") := by
  intro tbl res fps h
  have hz : jsOrQ (tbl.get res) 0 = 0 := by
    rw [h]
    exact jsOrQ_none 0
  refine ⟨hz, ?_, ?_⟩
  · unfold AV1Main.getTargetBitrate
    rw [hz]
    have hlin : AV1Main.targetBitrateLinear 0 fps = 0 := by
      unfold AV1Main.targetBitrateLinear
      ring
    rw [hlin]
    exact Int.floor_zero
  · intro s latest p hs hp
    have h1 : ((P001.vodBuilder s latest p).1.outputOptions)[3]?
        = some ("-crf " ++ toString (jsOrQ (s.crfPerResolution.get p.resolution) 0)) :=
      rfl
    rw [h1, hs, hp, hz]
    rfl

/-- C3 witness: the everywhere-empty table at 720p and 45 fps gives a 0
base bitrate, target bitrate 0, and a `-crf 0` flag in the `part_001`
VOD builder. -/
theorem c3_missing_tier_witness :
    jsOrQ (JSMap.get (fun _ => none : JSMap ℚ) VideoResolution.H_720P) 0 = 0 ∧
    AV1Main.getTargetBitrate (fun _ => none) VideoResolution.H_720P 45 = 0 ∧
    ((P001.vodBuilder
        { hardwareDecode := false, quality := 6, gop := 2,
          crfPerResolution := fun _ => none }
        9999
        { resolution := VideoResolution.H_720P, fps := 45,
          streamNum := none, inputBitrate := 0 }).1.outputOptions)[3]?
      = some "-crf 0" := by
  have h := c3_missing_tier_resolves_to_zero (fun _ => none)
    VideoResolution.H_720P 45 rfl
  exact ⟨h.1, h.2.1, h.2.2 _ 9999 _ rfl rfl⟩

/-- C5: the claim is the intent, but the `part_000` variant violates it.
Evaluating its `loadSettings` with every setting unset (no external
overrides) puts 12 — the `DEFAULT_PRESET` entry, written into the
wrong map by the preset loop — into `crfPerResolution` for the
audio-only tier, whose compiled-in default is 28.  The `src/main.ts`
variant does reproduce both of its default tables. -/
theorem c5_p000_reload_writes_wrong_map :
    JSMap.get ((P000.loadSettings noStore P000.initialPluginSettings).crfPerResolution)
        VideoResolution.H_NOVIDEO = some 12 ∧
    JSMap.get (JSMap.ofList P000.DEFAULT_CRF_RES) VideoResolution.H_NOVIDEO = some 28 ∧
    (12 : ℚ) ≠ 28 ∧
    (∀ r, JSMap.get ((P000.loadSettings noStore P000.initialPluginSettings).crfPerResolution) r
        = JSMap.get (JSMap.ofList P000.DEFAULT_PRESET) r) ∧
    (∀ r, JSMap.get ((AV1Main.loadSettings noStore AV1Main.initialPluginSettings).baseBitrate) r
        = JSMap.get (JSMap.ofList AV1Main.DEFAULT_BITRATES) r) ∧
    (∀ r, JSMap.get ((AV1Main.loadSettings noStore AV1Main.initialPluginSettings).crf_per_res) r
        = JSMap.get (JSMap.ofList AV1Main.DEFAULT_CRF_RES) r) := by
  refine ⟨rfl, rfl, by norm_num, ?_, ?_, ?_⟩ <;> intro r <;> cases r <;> rfl

/-- C6: after any reload, every tier of the default table is still
present in the runtime tables (reload never drops keys), and when an
override is absent — or present but unparseable — the stored value is
the compiled-in default-table value. -/
theorem c6_reload_preserves_keys :
    ∀ (sm : SettingsStore) (prior : AV1Main.PluginSettings) (r : VideoResolution),
      (JSMap.get ((AV1Main.loadSettings sm prior).baseBitrate) r).isSome ∧
      (JSMap.get ((AV1Main.loadSettings sm prior).crf_per_res) r).isSome ∧
      (sm (AV1Main.bitrateSettingKey r) = none →
        JSMap.get ((AV1Main.loadSettings sm prior).baseBitrate) r
          = JSMap.get (JSMap.ofList AV1Main.DEFAULT_BITRATES) r) ∧
      (∀ str, sm (AV1Main.bitrateSettingKey r) = some str → parseIntJS str = none →
        JSMap.get ((AV1Main.loadSettings sm prior).baseBitrate) r
          = JSMap.get (JSMap.ofList AV1Main.DEFAULT_BITRATES) r) := by
  intro sm prior r
  cases r <;>
    refine ⟨?_, ?_, fun h => ?_, fun str h hp => ?_⟩ <;>
      simp_all [AV1Main.loadSettings, AV1Main.DEFAULT_BITRATES, AV1Main.DEFAULT_CRF_RES,
        JSMap.set, JSMap.get, JSMap.ofList, List.foldl, List.find?,
        parseSetting, jsOrZ, Option.bind]

/-- C6 witness: a store with no overrides leaves the 720p base bitrate
present and equal to the default-table entry. -/
theorem c6_reload_preserves_keys_witness :
    (JSMap.get ((AV1Main.loadSettings noStore AV1Main.initialPluginSettings).baseBitrate)
        VideoResolution.H_720P).isSome ∧
    JSMap.get ((AV1Main.loadSettings noStore AV1Main.initialPluginSettings).baseBitrate)
        VideoResolution.H_720P
      = JSMap.get (JSMap.ofList AV1Main.DEFAULT_BITRATES) VideoResolution.H_720P :=
  ⟨(c6_reload_preserves_keys noStore AV1Main.initialPluginSettings VideoResolution.H_720P).1,
   (c6_reload_preserves_keys noStore AV1Main.initialPluginSettings VideoResolution.H_720P).2.2.1
     rfl⟩

/-- A runtime settings state in which the 144p base bitrate was
previously overridden to 5 (different from the compiled default). -/
def modifiedPriorSettings : AV1Main.PluginSettings :=
  { AV1Main.initialPluginSettings with
    baseBitrate := (JSMap.ofList AV1Main.DEFAULT_BITRATES).set VideoResolution.H_144P 5 }

/-- C6 counterexample: when the 144p override is absent from the store,
reload replaces the prior runtime value 5 with the compiled-in default
700000 — it does not fall back to the prior value as the claim says. -/
theorem c6_fallback_is_default_not_prior :
    JSMap.get modifiedPriorSettings.baseBitrate VideoResolution.H_144P = some 5 ∧
    noStore (AV1Main.bitrateSettingKey VideoResolution.H_144P) = none ∧
    JSMap.get ((AV1Main.loadSettings noStore modifiedPriorSettings).baseBitrate)
        VideoResolution.H_144P = some 700000 ∧
    (5 : ℚ) ≠ 700000 := by
  refine ⟨rfl, rfl, rfl, by norm_num⟩

lemma buildInitOptions_ne_nil (hw : Bool) : AV1Main.buildInitOptions hw ≠ [] := by
  cases hw <;> simp [AV1Main.buildInitOptions]

lemma initVaapiOptions_ne_nil : HWEncode.initVaapiOptions ≠ [] := by
  simp [HWEncode.initVaapiOptions]

lemma ite_ne_nil_iff (c : Prop) [Decidable c] (l : List String) (hl : l ≠ []) :
    (if c then l else []) ≠ [] ↔ c := by
  split
  · next h => simp [hl, h]
  · next h => simp [h]

lemma updateLatest_of_some (n latest : ℤ) (h : shouldInitVaapi (some n) latest) :
    updateLatest (some n) latest = n := by
  unfold updateLatest
  rw [if_pos h]

lemma updateLatest_of_not (sn : Option ℤ) (latest : ℤ)
    (h : ¬ shouldInitVaapi sn latest) : updateLatest sn latest = latest := by
  unfold updateLatest
  rw [if_neg h]

/-- C7: every builder emits its (always non-empty) one-time
initialization flags exactly when `streamIndex` is undefined or at most
the stored `latestStreamNum` (whose initial value is 9999); a call that
emits them with a defined `streamIndex` stores that index, and a call
that does not emit them leaves the stored value unchanged. -/
theorem c7_one_time_init_gating :
    latestStreamNumInit = 9999 ∧
    ∀ (s : AV1Main.PluginSettings) (latest : ℤ) (p : EncoderOptionsBuilderParams),
      ((AV1Main.vodBuilder s latest p).1.inputOptions ≠ [] ↔
          (p.streamNum = none ∨ ∃ n, p.streamNum = some n ∧ n ≤ latest)) ∧
      ((AV1Main.liveBuilder s latest p).1.inputOptions ≠ [] ↔
          (p.streamNum = none ∨ ∃ n, p.streamNum = some n ∧ n ≤ latest)) ∧
      ((HWEncode.vodBuilder latest p).1.inputOptions ≠ [] ↔
          (p.streamNum = none ∨ ∃ n, p.streamNum = some n ∧ n ≤ latest)) ∧
      (∀ n, p.streamNum = some n →
          (AV1Main.vodBuilder s latest p).1.inputOptions ≠ [] →
          (AV1Main.vodBuilder s latest p).2 = n) ∧
      ((AV1Main.vodBuilder s latest p).1.inputOptions = [] →
          (AV1Main.vodBuilder s latest p).2 = latest) := by
  refine ⟨rfl, ?_⟩
  intro s latest p
  have hv : (AV1Main.vodBuilder s latest p).1.inputOptions
      = (if shouldInitVaapi p.streamNum latest then
          AV1Main.buildInitOptions s.hardwareDecode else []) := rfl
  have hl : (AV1Main.liveBuilder s latest p).1.inputOptions
      = (if shouldInitVaapi p.streamNum latest then
          AV1Main.buildInitOptions s.hardwareDecode else []) := rfl
  have hh : (HWEncode.vodBuilder latest p).1.inputOptions
      = (if shouldInitVaapi p.streamNum latest then
          HWEncode.initVaapiOptions else []) := rfl
  have hiff : (AV1Main.vodBuilder s latest p).1.inputOptions ≠ [] ↔
      shouldInitVaapi p.streamNum latest := by
    rw [hv]
    exact ite_ne_nil_iff _ _ (buildInitOptions_ne_nil s.hardwareDecode)
  have hupd : (AV1Main.vodBuilder s latest p).2
      = updateLatest p.streamNum latest := rfl
  refine ⟨hiff, ?_, ?_, ?_, ?_⟩
  · rw [hl]
    exact ite_ne_nil_iff _ _ (buildInitOptions_ne_nil s.hardwareDecode)
  · rw [hh]
    exact ite_ne_nil_iff _ _ initVaapiOptions_ne_nil
  · intro n hn hne
    have hsi := hiff.mp hne
    rw [hn] at hsi
    rw [hupd, hn]
    exact updateLatest_of_some n latest hsi
  · intro hnil
    rw [hupd]
    by_cases hsi : shouldInitVaapi p.streamNum latest
    · exact absurd hnil (hiff.mpr hsi)
    · exact updateLatest_of_not _ _ hsi

/-- C7 witness: with stored value 9999 and stream index 3, the VOD
builder emits the initialization flags and stores 3. -/
theorem c7_one_time_init_gating_witness :
    (AV1Main.vodBuilder AV1Main.initialPluginSettings 9999
        { resolution := VideoResolution.H_720P, fps := 30,
          streamNum := some 3, inputBitrate := 100000000 }).1.inputOptions ≠ [] ∧
    (AV1Main.vodBuilder AV1Main.initialPluginSettings 9999
        { resolution := VideoResolution.H_720P, fps := 30,
          streamNum := some 3, inputBitrate := 100000000 }).2 = 3 := by
  have h := (c7_one_time_init_gating).2 AV1Main.initialPluginSettings 9999
    { resolution := VideoResolution.H_720P, fps := 30,
      streamNum := some 3, inputBitrate := 100000000 }
  have hne := h.1.mpr (Or.inr ⟨3, rfl, by norm_num⟩)
  exact ⟨hne, h.2.2.2.1 3 rfl hne⟩

/-- C8 counterexample: with the default GoP setting of 2 seconds and a
30 fps request, the `src/main.ts` live builder emits `-g:v 30`
(`fps * 1` frames), not the `-g:v 60` that `frameRate × gopSeconds`
would give. -/
theorem c8_live_g_ignores_gop :
    AV1Main.initialPluginSettings.gop = 2 ∧
    ((AV1Main.liveBuilder AV1Main.initialPluginSettings 9999
        { resolution := VideoResolution.H_720P, fps := 30,
          streamNum := none, inputBitrate := 100000000 }).1.outputOptions)[4]?
      = some "-g:v 30" ∧
    ("-g:v 30" : String) ≠ "-g:v 60" := by
  refine ⟨rfl, ?_, by decide⟩
  have h1 : ((AV1Main.liveBuilder AV1Main.initialPluginSettings 9999
      { resolution := VideoResolution.H_720P, fps := 30,
        streamNum := none, inputBitrate := 100000000 }).1.outputOptions)[4]?
      = some ("-g:v" ++ streamSuffixStr none ++ " " ++ toString ((30 : ℚ) * 1)) := rfl
  rw [h1, mul_one]
  rfl

/-- C8 amended: the VOD builders emit the keyframe-interval flag as the
textual expression `-g {fps}*{gop}` (whose evaluated product is
`frameRate × gopSeconds`), while the live builders ignore the
configured GoP-seconds setting and emit a hardcoded multiple of the
frame rate: `fps * 1` in the SVT-AV1 variant and `fps * 2` in the
h264_vaapi variant. -/
theorem c8_g_flag_shapes :
    (∀ (s : AV1Main.PluginSettings) (latest : ℤ) (p : EncoderOptionsBuilderParams),
        ((AV1Main.vodBuilder s latest p).1.outputOptions)[5]?
          = some ("-g " ++ toString p.fps ++ "*" ++ toString s.gop)) ∧
    (∀ (s : AV1Main.PluginSettings) (latest : ℤ) (p : EncoderOptionsBuilderParams),
        ((AV1Main.liveBuilder s latest p).1.outputOptions)[4]?
          = some ("-g:v" ++ streamSuffixStr p.streamNum ++ " " ++ toString (p.fps * 1))) ∧
    (∀ (latest : ℤ) (p : EncoderOptionsBuilderParams),
        ((HWEncode.liveBuilder latest p).1.outputOptions)[5]?
          = some ("-g:v" ++ streamSuffixStr p.streamNum ++ " " ++ toString (p.fps * 2))) ∧
    (∀ (s : AV1Main.PluginSettings) (latest : ℤ) (p : EncoderOptionsBuilderParams)
        (g1 g2 : ℤ),
        AV1Main.liveBuilder { s with gop := g1 } latest p
          = AV1Main.liveBuilder { s with gop := g2 } latest p) :=
  ⟨fun _ _ _ => rfl, fun _ _ _ => rfl, fun _ _ => rfl, fun _ _ _ _ _ => rfl⟩

/-- C9: the `src/main.ts` VOD builder derives its `-crf` flag from the
base-bitrate table (`baseBitrate.get(resolution) || 0`), not from the
CRF-per-resolution table: with the default settings a 1080p request is
given `-crf 13000000` although the configured CRF for 1080p is 28. -/
theorem c9_vod_crf_uses_bitrate_table :
    (∀ (s : AV1Main.PluginSettings) (latest : ℤ) (p : EncoderOptionsBuilderParams),
        ((AV1Main.vodBuilder s latest p).1.outputOptions)[2]?
          = some ("-crf " ++ toString (jsOrQ (s.baseBitrate.get p.resolution) 0))) ∧
    ((AV1Main.vodBuilder AV1Main.initialPluginSettings 9999
        { resolution := VideoResolution.H_1080P, fps := 30,
          streamNum := none, inputBitrate := 100000000 }).1.outputOptions)[2]?
      = some "-crf 13000000" ∧
    JSMap.get AV1Main.initialPluginSettings.crf_per_res VideoResolution.H_1080P
      = some 28 ∧
    ("-crf 13000000" : String) ≠ "-crf 28" := by
  refine ⟨fun _ _ _ => rfl, rfl, rfl, by decide⟩

/-- C10: the audio VOD builder's result does not depend on any request
field — any two requests get identical options, with empty pre-input
flags and exactly the fixed `-b:a 320k` and loudness-normalization
output flags. -/
theorem c10_audio_builder_request_independent :
    ∀ (s : AV1Main.PluginSettings) (p1 p2 : EncoderOptionsBuilderParams),
      AV1Main.vodAudioBuilder s p1 = AV1Main.vodAudioBuilder s p2 ∧
      (AV1Main.vodAudioBuilder s p1).inputOptions = [] ∧
      (AV1Main.vodAudioBuilder s p1).outputOptions
        = ["-b:a 320k", "-af loudnorm=I=-14:LRA=11:TP=-1"] :=
  fun _ _ _ => ⟨rfl, rfl, rfl⟩
